import Mathlib

/-!
Shallow embedding of the verifier-backend session/request-lifecycle core
(`internal/api/server.go`, `internal/api/qrcode.go`) and proofs of the
spec claims about it.  Go maps become association lists, the shared
`go-cache` instance becomes an explicit store value, `uuid.New()` results
become explicit parameters, and external collaborators (the iden3
verifier, circuit decoding, genesis-DID derivation) become parameters or
spec-modelled functions.
-/

namespace VerifierBackend

/-- A JSON value, modelling Go `interface{}` values decoded from JSON
(`map[string]interface{}` entries). -/
inductive JSON where
  | null
  | bool (b : Bool)
  | num (n : Int)
  | str (s : String)
  | arr (xs : List JSON)
  | obj (fields : List (String × JSON))

/-- Lookup in a Go `map[string]interface{}`, modelled as an association
list (first binding wins; Go maps have unique keys). -/
def jsonLookup (m : List (String × JSON)) (k : String) : Option JSON :=
  (m.find? (fun p => p.1 == k)).map (fun p => p.2)

/-- Lookup in a Go `map[string]string`. -/
def strLookup (m : List (String × String)) (k : String) : Option String :=
  (m.find? (fun p => p.1 == k)).map (fun p => p.2)

/- Constants from `server.go`. -/

def statusPending : String := "pending"

def statusSuccess : String := "success"

def statusError : String := "error"

def mumbaiNetwork : String := "80001"

def mainnetNetwork : String := "137"

def amoyNetwork : String := "80002"

def defaultReason : String := "for testing purposes"

/- Circuit identifiers from the `go-circuits` library (values confirmed by
the repository's own test expectations). -/

def AtomicQuerySigV2CircuitID : String := "credentialAtomicQuerySigV2"

def AtomicQueryMTPV2CircuitID : String := "credentialAtomicQueryMTPV2"

def AtomicQueryV3CircuitID : String := "credentialAtomicQueryV3-beta.1"

def AtomicQuerySigV2OnChainCircuitID : String := "credentialAtomicQuerySigV2OnChain"

def AtomicQueryMTPV2OnChainCircuitID : String := "credentialAtomicQueryMTPV2OnChain"

def AtomicQueryV3OnChainCircuitID : String := "credentialAtomicQueryV3OnChain-beta.1"

/-- The three off-chain circuit ids accepted by `SignIn`'s first switch case. -/
def offChainCircuits : List String :=
  [AtomicQuerySigV2CircuitID, AtomicQueryMTPV2CircuitID, AtomicQueryV3CircuitID]

/-- The three on-chain circuit ids accepted by `SignIn`'s second switch case. -/
def onChainCircuits : List String :=
  [AtomicQuerySigV2OnChainCircuitID, AtomicQueryMTPV2OnChainCircuitID, AtomicQueryV3OnChainCircuitID]

/- Request input types (generated API request types, reconstructed from
their uses in `server.go` and `server_test.go`). -/

/-- One scope entry of a sign-in specification (`ScopeRequest`).
`Id` is a Go `uint32`; `Query`/`Params` are JSON maps, `none` models a
nil map / absent field. -/
structure ScopeRequest where
  Id : Nat
  CircuitId : String
  Query : Option (List (String × JSON))
  Params : Option (List (String × JSON))

/-- On-chain transaction-target data of a sign-in specification. -/
structure TransactionDataRequest where
  ChainID : Int
  ContractAddress : String
  MethodID : String
  Network : String
deriving DecidableEq

/-- The body of a sign-in request (`SignInRequestObject.Body`). -/
structure SignInBody where
  ChainID : Option String
  Scope : List ScopeRequest
  To : Option String
  Reason : Option String
  TransactionData : Option TransactionDataRequest

/- Built message types (`protocol.AuthorizationRequestMessage`,
`protocol.ContractInvokeRequestMessage` from iden3comm, restricted to the
fields the repository reads or writes). -/

/-- `protocol.ZeroKnowledgeProofRequest`: one scope of a built request
message.  `Params` is the map produced by `getParams`
(`{"nullifierSessionId": <decimal string>}`). -/
structure ZKProofRequest where
  ID : Nat
  CircuitID : String
  Query : Option (List (String × JSON))
  Params : Option (List (String × String))

/-- Body of an authorization request message. -/
structure AuthRequestBody where
  CallbackURL : String
  Reason : String
  Scope : List ZKProofRequest

/-- `protocol.AuthorizationRequestMessage`. -/
structure AuthorizationRequestMessage where
  ID : String
  Typ : String
  «Type» : String
  ThreadID : String
  Body : AuthRequestBody
  From : String
  To : String

/-- `protocol.TransactionData`. -/
structure TransactionData where
  ContractAddress : String
  MethodID : String
  ChainID : Int
  Network : String
deriving DecidableEq

/-- Body of a contract invoke request message. -/
structure ContractInvokeBody where
  Reason : String
  TransactionData : TransactionData
  Scope : List ZKProofRequest

/-- `protocol.ContractInvokeRequestMessage`. -/
structure ContractInvokeRequestMessage where
  ID : String
  Typ : String
  «Type» : String
  ThreadID : String
  Body : ContractInvokeBody
  From : String
  To : String

/- iden3comm media/message type tags (fixed strings of the external
library; their exact values are irrelevant to the claims). -/

def mediaTypePlainMessage : String := "application/iden3comm-plain-json"

def authorizationRequestMessageType : String :=
  "https://iden3-communication.io/authorization/1.0/request"

def contractInvokeRequestMessageType : String :=
  "https://iden3-communication.io/proofs/1.0/contract-invoke-request"

/-- Modelled from the spec: the external constructor
`auth.CreateAuthorizationRequest` of go-iden3-auth builds an
authorization-request envelope with the plain media type, the
authorization-request message type, the given sender, reason and
callback URL, and an empty scope list (the caller then overwrites the
id and thread id). -/
def CreateAuthorizationRequest (reason sender callbackURL : String) :
    AuthorizationRequestMessage :=
  { ID := ""
    Typ := mediaTypePlainMessage
    «Type» := authorizationRequestMessageType
    ThreadID := ""
    Body := { CallbackURL := callbackURL, Reason := reason, Scope := [] }
    From := sender
    To := "" }

/-- Modelled from the spec: the external constructor
`auth.CreateContractInvokeRequest` of go-iden3-auth builds a
contract-invoke envelope with the plain media type, the contract-invoke
message type, the given sender, reason, transaction data and scope list. -/
def CreateContractInvokeRequest (reason sender : String)
    (td : TransactionData) (scopes : List ZKProofRequest) :
    ContractInvokeRequestMessage :=
  { ID := ""
    Typ := mediaTypePlainMessage
    «Type» := contractInvokeRequestMessageType
    ThreadID := ""
    Body := { Reason := reason, TransactionData := td, Scope := scopes }
    From := sender
    To := "" }

/- ------------------------------------------------------------------ -/
/- Request validation (`validateOffChainRequest`, `validateRequestQuery`,
`checkOnChainRequest` in `server.go`). -/

/-- `true` when a Go `interface{}` JSON value is `nil` or the empty
string, mirroring `scope.Query[k] == nil || scope.Query[k] == ""` (a map
miss and JSON `null` both give `nil`; comparing to `""` is true only for
the string `""`). -/
def isNilOrEmptyStr : Option JSON → Bool
  | none => true
  | some .null => true
  | some (.str s) => s == ""
  | some _ => false

/-- `true` when a Go `interface{}` JSON value is `nil`, mirroring
`scope.Query["allowedIssuers"] == nil`. -/
def isNilJSON : Option JSON → Bool
  | none => true
  | some .null => true
  | some _ => false

/-- The per-scope field checks of `validateRequestQuery`'s loop body that
follow the duplicate-id check, in source order: positive id, non-empty
circuit id, circuit id in the allowed set for the mode, query present,
and `context`/`type`/`allowedIssuers` inside the query. -/
def scopeCheck (offChainRequest : Bool) (scope : ScopeRequest) : Except String Unit :=
  if scope.Id = 0 then
    .error "field scope id is empty"
  else if scope.CircuitId = "" then
    .error "field circuitId is empty"
  else if offChainRequest && !(offChainCircuits.contains scope.CircuitId) then
    .error ("field circuitId value is wrong, got " ++ scope.CircuitId ++ ", expected "
      ++ AtomicQuerySigV2CircuitID ++ " or " ++ AtomicQueryMTPV2CircuitID ++ " or "
      ++ AtomicQueryV3CircuitID)
  else if !offChainRequest && !(onChainCircuits.contains scope.CircuitId) then
    .error ("field circuitId value is wrong, got " ++ scope.CircuitId ++ ", expected "
      ++ AtomicQuerySigV2OnChainCircuitID ++ " or " ++ AtomicQueryMTPV2OnChainCircuitID ++ " or "
      ++ AtomicQueryV3OnChainCircuitID)
  else
    match scope.Query with
    | none => .error "field query is empty"
    | some q =>
      if isNilOrEmptyStr (jsonLookup q "context") then
        .error "context cannot be empty"
      else if isNilOrEmptyStr (jsonLookup q "type") then
        .error "type cannot be empty"
      else if isNilJSON (jsonLookup q "allowedIssuers") then
        .error "allowedIssuers cannot be empty"
      else
        .ok ()

/-- The duplicated-scope-id error message of `validateRequestQuery`. -/
def dupScopeIdMsg (id : Nat) : String :=
  "field scope id must be unique, got " ++ toString id ++ " multiple times"

/-- The loop of `validateRequestQuery`: `seen` is the `reqIds` set
accumulated so far; the duplicate check precedes the per-scope field
checks, and the first failure wins. -/
def validateScopes (offChainRequest : Bool) (seen : List Nat) :
    List ScopeRequest → Except String Unit
  | [] => .ok ()
  | scope :: rest =>
    if seen.contains scope.Id then
      .error (dupScopeIdMsg scope.Id)
    else
      match scopeCheck offChainRequest scope with
      | .error e => .error e
      | .ok _ => validateScopes offChainRequest (scope.Id :: seen) rest

/-- `validateRequestQuery` from `server.go`. -/
def validateRequestQuery (offChainRequest : Bool) (scope : List ScopeRequest) :
    Except String Unit :=
  validateScopes offChainRequest [] scope

/-- The chain-id-absent error message of `validateOffChainRequest`. -/
def chainIdEmptyMsg : String :=
  "field chainId is empty expected " ++ mumbaiNetwork ++ " or " ++ mainnetNetwork
    ++ " or " ++ amoyNetwork

/-- `validateOffChainRequest` from `server.go`: only the *presence* of the
chain id is checked, not its membership in the supported set. -/
def validateOffChainRequest (body : SignInBody) : Except String Unit :=
  match body.ChainID with
  | none => .error chainIdEmptyMsg
  | some _ => validateRequestQuery true body.Scope

/-- `checkOnChainRequest` from `server.go`. -/
def checkOnChainRequest (body : SignInBody) : Except String Unit :=
  match validateRequestQuery false body.Scope with
  | .error e => .error e
  | .ok _ =>
    match body.TransactionData with
    | none => .error "field transactionData is empty"
    | some td =>
      if td.ChainID ≤ 0 then .error "field chainId is empty"
      else if td.ContractAddress = "" then .error "field contractAddress is empty"
      else if td.MethodID = "" then .error "field methodId is empty"
      else if td.Network = "" then .error "field network is empty"
      else .ok ()

/- ------------------------------------------------------------------ -/
/- `getParams` and big-integer parsing. -/

/-- Outcome of a Go computation that can return a value, return an error,
or panic (the unchecked `val.(string)` type assertion in `getParams`). -/
inductive GoResult (α : Type) where
  | ok (a : α)
  | err (msg : String)
  | panicked

/-- Base-10 digits of a natural number accumulated left to right. -/
def natFromDigits (cs : List Char) : Nat :=
  cs.foldl (fun acc c => 10 * acc + (c.toNat - '0'.toNat)) 0

/-- `true` when `cs` is a non-empty run of decimal digits. -/
def allDecimalDigits (cs : List Char) : Bool :=
  !cs.isEmpty && cs.all (fun c => c.isDigit)

/-- Go's `big.Int.SetString(s, 10)`: an optional sign followed by one or
more decimal digits, the whole string consumed; anything else fails.
Returns the parsed integer on success. -/
def bigIntSetString (s : String) : Option Int :=
  match s.data with
  | '+' :: rest => if allDecimalDigits rest then some (natFromDigits rest : Int) else none
  | '-' :: rest => if allDecimalDigits rest then some (-(natFromDigits rest : Int)) else none
  | l => if allDecimalDigits l then some (natFromDigits l : Int) else none

/-- `getParams` from `server.go`: the only key ever read is
`"nullifierSessionID"`; a missing key errors, a non-string value panics
at the `val.(string)` assertion, a string that is not a valid base-10
big integer errors, and a valid one is re-serialized in decimal under
the key `"nullifierSessionId"`. -/
def getParams (params : List (String × JSON)) : GoResult (List (String × String)) :=
  match jsonLookup params "nullifierSessionID" with
  | none => .err "nullifierSessionID is empty"
  | some (.str s) =>
    match bigIntSetString s with
    | none => .err "nullifierSessionID is not a valid big integer"
    | some n => .ok [("nullifierSessionId", toString n)]
  | some _ => .panicked

/- ------------------------------------------------------------------ -/
/- Request builders. -/

/-- Server configuration visible to the handlers: the host base URL
(`cfg.Host`) and the chain-id-to-sender-DID map (`s.senderDIDs`). -/
structure ServerCfg where
  host : String
  senderDIDs : List (String × String)

/-- `getSenderDID` from `server.go`. -/
def getSenderDID (cfg : ServerCfg) (chainID : String) : Except String String :=
  match strLookup cfg.senderDIDs chainID with
  | none => .error ("sender not found for chainID " ++ chainID)
  | some v => .ok v

/-- `getUri` from `server.go` (`config.CallbackURL = "/callback"`). -/
def getUri (cfg : ServerCfg) (sessionID : String) : String :=
  cfg.host ++ "/callback?sessionID=" ++ sessionID

/-- `getReason` from `server.go`. -/
def getReason (reason : Option String) : String :=
  match reason with
  | none => defaultReason
  | some r => r

/-- The scope-building loop shared by `getAuthRequestOffChain` and
`getContractInvokeRequestOnChain`: each scope is copied verbatim, and a
present params map goes through `getParams`, aborting on its first
error (or panic). -/
def buildScopes : List ScopeRequest → GoResult (List ZKProofRequest)
  | [] => .ok []
  | scope :: rest =>
    let base : ZKProofRequest :=
      { ID := scope.Id, CircuitID := scope.CircuitId, Query := scope.Query, Params := none }
    match scope.Params with
    | none =>
      match buildScopes rest with
      | .ok l => .ok (base :: l)
      | .err e => .err e
      | .panicked => .panicked
    | some p =>
      match getParams p with
      | .err e => .err e
      | .panicked => .panicked
      | .ok params =>
        match buildScopes rest with
        | .ok l => .ok ({ base with Params := some params } :: l)
        | .err e => .err e
        | .panicked => .panicked

/-- `getAuthRequestOffChain` from `server.go`.  `sessionID` models the
session uuid generated in `SignIn`; `msgID` models the `uuid.NewString()`
generated for the message id.  Dereferencing a `nil` `ChainID` would
panic in Go; that branch is unreachable after validation. -/
def getAuthRequestOffChain (cfg : ServerCfg) (req : SignInBody)
    (sessionID msgID : String) : GoResult AuthorizationRequestMessage :=
  match validateOffChainRequest req with
  | .error e => .err e
  | .ok _ =>
    match req.ChainID with
    | none => .panicked
    | some chainID =>
      match getSenderDID cfg chainID with
      | .error e => .err e
      | .ok senderDID =>
        let base := CreateAuthorizationRequest (getReason req.Reason) senderDID
          (getUri cfg sessionID)
        let authReq := { base with
          ID := msgID
          ThreadID := msgID
          To := match req.To with | none => "" | some t => t }
        match buildScopes req.Scope with
        | .err e => .err e
        | .panicked => .panicked
        | .ok scopes => .ok { authReq with Body := { authReq.Body with Scope := scopes } }

/-- Modelled from the spec: the external genesis-DID network table
(`core.NetworkByChainID`), which resolves a chain id to its blockchain
and network names and fails for unregistered chain ids.  Only the three
deployed Polygon networks are registered. -/
def networkByChainID (chainID : Int) : Option (String × String) :=
  if chainID = 80001 then some ("polygon", "mumbai")
  else if chainID = 137 then some ("polygon", "main")
  else if chainID = 80002 then some ("polygon", "amoy")
  else none

/-- Modelled from the spec: `buildOnchainVerifierDID` derives a
deterministic "genesis" identity from the contract address and the
chain id's registered network (external `go-iden3-core` collaborators
`GenesisFromEthAddress`, `NetworkByChainID`, `BuildDIDType`, `NewDID`);
it fails for chain ids with no registered network. -/
def buildOnchainVerifierDID (td : TransactionData) : Except String String :=
  match networkByChainID td.ChainID with
  | none => .error ("chainID " ++ toString td.ChainID ++ " is not registered")
  | some bn =>
    .ok ("did:polygonid:" ++ bn.1 ++ ":" ++ bn.2 ++ ":genesis-" ++ td.ContractAddress)

/-- `getContractInvokeRequestOnChain` from `server.go`, in source order:
validate, build the scope list (running `getParams`), copy the
transaction data, resolve the sender DID by the decimal chain id, build
the envelope, overwrite id/thread id, derive the on-chain verifier DID
for `From`, and set `To` from the request. -/
def getContractInvokeRequestOnChain (cfg : ServerCfg) (req : SignInBody)
    (msgID : String) : GoResult ContractInvokeRequestMessage :=
  match checkOnChainRequest req with
  | .error e => .err e
  | .ok _ =>
    match buildScopes req.Scope with
    | .err e => .err e
    | .panicked => .panicked
    | .ok scopes =>
      match req.TransactionData with
      | none => .panicked
      | some td0 =>
        let td : TransactionData :=
          { ContractAddress := td0.ContractAddress, MethodID := td0.MethodID
            ChainID := td0.ChainID, Network := td0.Network }
        match getSenderDID cfg (toString td.ChainID) with
        | .error e => .err e
        | .ok senderDID =>
          let base := CreateContractInvokeRequest (getReason req.Reason) senderDID td scopes
          let authReq := { base with ID := msgID, ThreadID := msgID, To := "" }
          match buildOnchainVerifierDID td with
          | .error e => .err e
          | .ok did =>
            .ok { authReq with
              From := did
              To := match req.To with | none => "" | some t => t }

/- ------------------------------------------------------------------ -/
/- QR code response types and conversions. -/

/-- One scope of the QR payload (`Scope` in the generated API types). -/
structure ScopeOut where
  CircuitId : String
  Id : Nat
  Query : Option (List (String × JSON))
  Params : Option (List (String × String))

/-- Transaction data of the QR payload. -/
structure TransactionDataResponse where
  ChainId : Int
  ContractAddress : String
  MethodId : String
  Network : String
deriving DecidableEq

/-- Body of the QR payload. -/
structure QRBody where
  CallbackUrl : Option String
  Reason : String
  Scope : List ScopeOut
  TransactionData : Option TransactionDataResponse

/-- The QR payload stored for out-of-band fetching (`QRCode` in the
generated API types). -/
structure QRCode where
  From : String
  Id : String
  Thid : String
  Typ : String
  «Type» : String
  Body : QRBody
  To : Option String

/-- `getAuthReqQRCode` from `server.go`. -/
def getAuthReqQRCode (request : AuthorizationRequestMessage) : QRCode :=
  let scopes := request.Body.Scope.map (fun scope =>
    { CircuitId := scope.CircuitID, Id := scope.ID, Query := scope.Query
      Params := scope.Params : ScopeOut })
  { From := request.From
    Id := request.ID
    Thid := request.ThreadID
    Typ := request.Typ
    «Type» := request.«Type»
    Body :=
      { CallbackUrl := some request.Body.CallbackURL
        Reason := request.Body.Reason
        Scope := scopes
        TransactionData := none }
    To := if request.To = "" then none else some request.To }

/-- `getInvokeContractQRCode` from `server.go`. -/
def getInvokeContractQRCode (request : ContractInvokeRequestMessage) : QRCode :=
  let scopes := request.Body.Scope.map (fun scope =>
    { CircuitId := scope.CircuitID, Id := scope.ID, Query := scope.Query
      Params := scope.Params : ScopeOut })
  { From := request.From
    Id := request.ID
    Thid := request.ThreadID
    Typ := request.Typ
    «Type» := request.«Type»
    Body :=
      { CallbackUrl := none
        Reason := request.Body.Reason
        Scope := scopes
        TransactionData := some
          { ChainId := request.Body.TransactionData.ChainID
            ContractAddress := request.Body.TransactionData.ContractAddress
            MethodId := request.Body.TransactionData.MethodID
            Network := request.Body.TransactionData.Network } }
    To := if request.To = "" then none else some request.To }

/- ------------------------------------------------------------------ -/
/- Verification response model and the shared cache. -/

/-- `models.VerificationResponseScope`: one per-scope verification
artifact (nullifier data rendered as decimal strings). -/
structure VerificationResponseScope where
  ID : Nat
  NullifierSessionID : String
  Nullifier : String
deriving DecidableEq

/-- `models.VerificationResponse`. -/
structure VerificationResponse where
  Jwz : String
  UserDID : String
  Scopes : List VerificationResponseScope
deriving DecidableEq

/-- A value held by the shared `go-cache` instance.  In Go the cache is
`string -> interface{}`; these are exactly the value shapes the server
ever stores (the `Status`/`Callback` type switches distinguish them at
runtime). -/
inductive CacheValue where
  | authMsg (m : AuthorizationRequestMessage)
  | invokeMsg (m : ContractInvokeRequestMessage)
  | errVal (msg : String)
  | verification (v : VerificationResponse)
  | qr (q : QRCode)

/-- The process-wide cache shared by the session store and the QR store,
modelled as an association list where the most recent write for a key
comes first (so a write overwrites: `get` finds the newest binding). -/
def Store := List (String × CacheValue)

/-- `cache.Set`: insert or overwrite. -/
def Store.set (st : Store) (k : String) (v : CacheValue) : Store :=
  (k, v) :: st

/-- `cache.Get` (a pure read: the store carries no sliding expiration). -/
def Store.get (st : Store) (k : String) : Option CacheValue :=
  (List.find? (fun p => p.1 == k) st).map (fun p => p.2)

/-- The key prefix of `QRcodeStore.key()`. -/
def qrKeyPrefix : String := "qr-code-"

/-- `QRcodeStore.Save`: generates a fresh uuid (here the explicit `id`
parameter), stores the payload under the namespaced key with a one-hour
TTL, and returns the id with a nil error. -/
def qrStoreSave (st : Store) (id : String) (qrCode : QRCode) : Store :=
  st.set (qrKeyPrefix ++ id) (.qr qrCode)

/-- `QRcodeStore.Get`: a cache miss is "sessionID not found"; a value of
the wrong dynamic type is a cast failure. -/
def qrStoreGet (st : Store) (id : String) : Except String QRCode :=
  match st.get (qrKeyPrefix ++ id) with
  | none => .error "sessionID not found"
  | some (.qr q) => .ok q
  | some _ => .error "failed to cast data to QRCode"

/- ------------------------------------------------------------------ -/
/- The SignIn handler. -/

/-- Result of the `SignIn` handler: a 200 with the indirection URL and
session id, a 400 with a message, a 500 with a message, or a Go panic. -/
inductive SignInResult where
  | ok (qrCode : String) (sessionID : String)
  | badRequest (msg : String)
  | serverError (msg : String)
  | panicked
deriving DecidableEq

/-- The indirection URL `SignIn` returns:
`iden3comm://?request_uri={host}/qr-store?id={qrID}`. -/
def signInQRURL (host qrID : String) : String :=
  "iden3comm://?request_uri=" ++ host ++ "/qr-store" ++ "?id=" ++ qrID

/-- `SignIn` from `server.go`.  `sessionID`, `msgID` and `qrID` model the
three uuids generated during the call (`uuid.New()` in `SignIn`,
`uuid.NewString()` in the builder, `uuid.New()` in `QRcodeStore.Save`).
Returns the handler result together with the cache after the call. -/
def signIn (cfg : ServerCfg) (st : Store) (sessionID msgID qrID : String)
    (req : SignInBody) : SignInResult × Store :=
  match req.Scope with
  | [] => (.badRequest "field scope is empty", st)
  | scope0 :: _ =>
    if offChainCircuits.contains scope0.CircuitId then
      match getAuthRequestOffChain cfg req sessionID msgID with
      | .err e => (.badRequest e, st)
      | .panicked => (.panicked, st)
      | .ok authReq =>
        let st1 := st.set sessionID (.authMsg authReq)
        let st2 := qrStoreSave st1 qrID (getAuthReqQRCode authReq)
        (.ok (signInQRURL cfg.host qrID) sessionID, st2)
    else if onChainCircuits.contains scope0.CircuitId then
      match getContractInvokeRequestOnChain cfg req msgID with
      | .err e => (.badRequest e, st)
      | .panicked => (.panicked, st)
      | .ok invokeReq =>
        let st1 := st.set sessionID (.invokeMsg invokeReq)
        let st2 := qrStoreSave st1 qrID (getInvokeContractQRCode invokeReq)
        (.ok (signInQRURL cfg.host qrID) sessionID, st2)
    else
      (.badRequest "invalid circuitID", st)

/- ------------------------------------------------------------------ -/
/- The Status handler. -/

/-- `JWZProofs` of the generated API types: per-scope nullifier data of a
success status response. -/
structure JWZProofs where
  ScopeID : Nat
  NullifierSessionID : String
  Nullifier : String
deriving DecidableEq

/-- `JWZMetadata` of the generated API types. -/
structure JWZMetadata where
  UserDID : String
  Nullifiers : Option (List JWZProofs)
deriving DecidableEq

/-- `Status200JSONResponse` of the generated API types. -/
structure Status200 where
  Status : String
  Message : Option String := none
  Jwz : Option String := none
  JwzMetadata : Option JWZMetadata := none
deriving DecidableEq

/-- Result of the `Status` handler.  `nilResponse` models the handler
returning `nil, nil` when the cached value matches no case of the type
switch (the fall-through at the end of `Status`). -/
inductive StatusResult where
  | notFound (msg : String)
  | ok (r : Status200)
  | nilResponse
deriving DecidableEq

/-- `getStatusVerificationResponse` from `server.go`. -/
def getStatusVerificationResponse (verification : VerificationResponse) : Status200 :=
  let nullifiers :=
    if verification.Scopes.isEmpty then none
    else some (verification.Scopes.map (fun scope =>
      { ScopeID := scope.ID
        NullifierSessionID := scope.NullifierSessionID
        Nullifier := scope.Nullifier : JWZProofs }))
  { Status := statusSuccess
    Jwz := some verification.Jwz
    JwzMetadata := some { UserDID := verification.UserDID, Nullifiers := nullifiers } }

/-- `Status` from `server.go`: a cache miss is a 404; a stored
authorization request is "pending"; a stored error is "error" with its
message; a stored verification response is rendered by
`getStatusVerificationResponse`; anything else (in particular a stored
contract-invoke message) falls through to `nil, nil`. -/
def statusHandler (st : Store) (sessionID : String) : StatusResult :=
  match st.get sessionID with
  | none => .notFound "sessionID not found"
  | some (.authMsg _) => .ok { Status := statusPending }
  | some (.errVal e) => .ok { Status := statusError, Message := some e }
  | some (.verification v) => .ok (getStatusVerificationResponse v)
  | some _ => .nilResponse

/- ------------------------------------------------------------------ -/
/- The Callback handler. -/

/-- The nullifier-bearing public signals of a V3 proof
(`circuits.AtomicQueryV3PubSignals`, restricted to the two fields the
server reads; both are `big.Int`s). -/
structure V3PubSignals where
  Nullifier : Int
  NullifierSessionID : Int
deriving DecidableEq

/-- `protocol.ZeroKnowledgeProofResponse`, restricted to the fields the
server reads.  `PubSignalsV3` is the outcome of marshalling the scope's
public signals and decoding them with the external circuit library
(`json.Marshal` + `AtomicQueryV3PubSignals.PubSignalsUnmarshal`),
modelled by its result since the decoder is an external collaborator. -/
structure ZKProofResponse where
  ID : Nat
  CircuitID : String
  PubSignalsV3 : Except String V3PubSignals

/-- `protocol.AuthorizationResponseMessage`, restricted to the fields the
server reads (`From` and `Body.Scope`). -/
structure AuthorizationResponseMessage where
  From : String
  Scope : List ZKProofResponse

/-- The loop of `getVerificationResponseScopes`: a non-V3 scope anywhere
returns the empty list (discarding the accumulator, as the Go `return`
does); a decode failure aborts with its error; otherwise the artifacts
are accumulated in order. -/
def collectV3Scopes (acc : List VerificationResponseScope) :
    List ZKProofResponse → Except String (List VerificationResponseScope)
  | [] => .ok acc.reverse
  | scope :: rest =>
    if scope.CircuitID = AtomicQueryV3CircuitID then
      match scope.PubSignalsV3 with
      | .error e => .error e
      | .ok ps =>
        collectV3Scopes
          ({ ID := scope.ID
             NullifierSessionID := toString ps.NullifierSessionID
             Nullifier := toString ps.Nullifier } :: acc) rest
    else
      .ok []

/-- `getVerificationResponseScopes` from `server.go`: an empty scope list
is an error; a non-V3 first scope short-circuits to the empty artifact
list; otherwise each V3 scope yields an artifact with the scope id and
the decimal renderings of the nullifier and nullifier session id. -/
def getVerificationResponseScopes (scopes : List ZKProofResponse) :
    Except String (List VerificationResponseScope) :=
  match scopes with
  | [] => .error "scopes are empty"
  | scope0 :: _ =>
    if scope0.CircuitID ≠ AtomicQueryV3CircuitID then .ok []
    else collectV3Scopes [] scopes

/-- The external verifier (`s.verifier.FullVerify`): given the raw token
and the stored pending request, it either returns the decoded response
message or rejects with an error.  It is an external collaborator, so
`callback` takes it as a parameter. -/
def VerifierFn : Type :=
  String → AuthorizationRequestMessage → Except String AuthorizationResponseMessage

/-- Result of the `Callback` handler: a 200, a 500 with a message, or a
Go error returned to the framework (`nil, err`). -/
inductive CallbackResult where
  | ok200
  | err500 (msg : String)
  | goError (msg : String)
deriving DecidableEq

/-- `Callback` from `server.go`: a cache miss returns a Go error; a
cached value that is not an `AuthorizationRequestMessage` fails the type
assertion with a 500 and no write; a verifier rejection overwrites the
session with the error value and returns a 500 with its message; a
verifier success extracts the per-scope artifacts (any extraction error
is a 500 with no write) and overwrites the session with the
verification response. -/
def callback (st : Store) (sessionID : String) (token : String)
    (fullVerify : VerifierFn) : CallbackResult × Store :=
  match st.get sessionID with
  | none => (.goError "sessionID not found", st)
  | some (.authMsg authRequest) =>
    match fullVerify token authRequest with
    | .error e => (.err500 e, st.set sessionID (.errVal e))
    | .ok authRespMsg =>
      match getVerificationResponseScopes authRespMsg.Scope with
      | .error e => (.err500 e, st)
      | .ok scopes =>
        (.ok200, st.set sessionID
          (.verification { Jwz := token, UserDID := authRespMsg.From, Scopes := scopes }))
  | some _ => (.err500 "failed to cast authRequest to AuthorizationRequestMessage", st)

/- ------------------------------------------------------------------ -/
/- Statement-side helper definitions. -/

/-- The artifact `getVerificationResponseScopes` builds for a V3 scope
whose public-signal decode succeeded (the error branch is never reached
under that hypothesis). -/
def expectedV3Artifact (scope : ZKProofResponse) : VerificationResponseScope :=
  match scope.PubSignalsV3 with
  | .ok ps =>
    { ID := scope.ID
      NullifierSessionID := toString ps.NullifierSessionID
      Nullifier := toString ps.Nullifier }
  | .error _ => { ID := scope.ID, NullifierSessionID := "", Nullifier := "" }

/-- Runs a sequence of `Callback` calls against one session, threading
the store (each call may use a different token and verifier outcome). -/
def runCallbacks (sessionID : String) : Store → List (String × VerifierFn) → Store
  | st, [] => st
  | st, (token, fv) :: rest => runCallbacks sessionID (callback st sessionID token fv).2 rest

/- Concrete inputs used by the witnesses and counterexamples. -/

/-- A concrete server configuration with a sender DID for chain 80001. -/
def cfgW : ServerCfg :=
  { host := "http://localhost", senderDIDs := [("80001", "did:polygonid:polygon:mumbai:2qH7")] }

/-- A concrete well-formed query document. -/
def queryW : List (String × JSON) :=
  [("context", .str "ctx"), ("type", .str "KYCAgeCredential"), ("allowedIssuers", .arr [.str "*"])]

/-- A concrete valid off-chain scope. -/
def scSigV2W : ScopeRequest :=
  { Id := 1, CircuitId := AtomicQuerySigV2CircuitID, Query := some queryW, Params := none }

/-- A concrete valid off-chain sign-in body for chain 80001. -/
def reqOffW : SignInBody :=
  { ChainID := some "80001", Scope := [scSigV2W], To := none, Reason := none
    TransactionData := none }

/-- A concrete valid on-chain scope. -/
def scOnChainW : ScopeRequest :=
  { Id := 1, CircuitId := AtomicQuerySigV2OnChainCircuitID, Query := some queryW, Params := none }

/-- A concrete valid on-chain sign-in body targeting chain 80001. -/
def reqOnW : SignInBody :=
  { ChainID := none, Scope := [scOnChainW], To := none, Reason := none
    TransactionData := some
      { ChainID := 80001, ContractAddress := "0x2C1D", MethodID := "b68967e2"
        Network := "polygon-mumbai" } }

/-- A concrete pending authorization-request message, as stored by an
off-chain `SignIn`. -/
def pendingMsgW : AuthorizationRequestMessage :=
  { ID := "mid"
    Typ := mediaTypePlainMessage
    «Type» := authorizationRequestMessageType
    ThreadID := "mid"
    Body :=
      { CallbackURL := getUri cfgW "sid"
        Reason := defaultReason
        Scope := [{ ID := 1, CircuitID := AtomicQuerySigV2CircuitID, Query := some queryW
                    Params := none }] }
    From := "did:polygonid:polygon:mumbai:2qH7"
    To := "" }

/-- A concrete store holding only the pending session `"sid"`. -/
def storePendingW : Store := [("sid", .authMsg pendingMsgW)]

/-- A concrete verifier response whose two scopes are both V3 with
successfully decoded public signals. -/
def respV3W : AuthorizationResponseMessage :=
  { From := "did:polygonid:polygon:mumbai:2qUser"
    Scope :=
      [ { ID := 1, CircuitID := AtomicQueryV3CircuitID
          PubSignalsV3 := .ok { Nullifier := 77, NullifierSessionID := 100 } }
      , { ID := 2, CircuitID := AtomicQueryV3CircuitID
          PubSignalsV3 := .ok { Nullifier := 78, NullifierSessionID := 101 } } ] }

/-- A concrete verifier response whose first scope is a non-V3 circuit. -/
def respSigV2W : AuthorizationResponseMessage :=
  { From := "did:polygonid:polygon:mumbai:2qUser"
    Scope :=
      [ { ID := 1, CircuitID := AtomicQuerySigV2CircuitID
          PubSignalsV3 := .error "invalid number of Signals" } ] }

/- ------------------------------------------------------------------ -/
/- Store lemmas. -/

theorem Store.get_set_self (st : Store) (k : String) (v : CacheValue) :
    (st.set k v).get k = some v := by
  simp [Store.set, Store.get, List.find?]

theorem Store.get_set_ne (st : Store) (k k' : String) (v : CacheValue) (h : k ≠ k') :
    (st.set k v).get k' = st.get k' := by
  have hb : (k == k') = false := beq_eq_false_iff_ne.mpr h
  simp [Store.set, Store.get, List.find?, hb]

/- Validation lemmas. -/

/-- If the validation loop succeeds, the scope ids are duplicate-free,
disjoint from the already-seen set, and every per-scope field check
passed. -/
theorem validateScopes_ok (off : Bool) :
    ∀ (scopes : List ScopeRequest) (seen : List Nat),
      validateScopes off seen scopes = .ok () →
      ((scopes.map (fun s => s.Id)).Nodup ∧
        (∀ i ∈ scopes.map (fun s => s.Id), i ∉ seen) ∧
        (∀ s ∈ scopes, scopeCheck off s = .ok ()))
  | [], seen, _ => by simp
  | scope :: rest, seen, h => by
    rw [validateScopes] at h
    by_cases hmem : scope.Id ∈ seen
    · rw [if_pos (List.elem_iff.mpr hmem)] at h
      exact absurd h (by simp)
    · rw [if_neg (fun hc => hmem (List.elem_iff.mp hc))] at h
      cases hsc : scopeCheck off scope with
      | error e => rw [hsc] at h; exact absurd h (by simp)
      | ok u =>
        rw [hsc] at h
        obtain ⟨hnd, hdisj, hchecks⟩ := validateScopes_ok off rest (scope.Id :: seen) h
        refine ⟨?_, ?_, ?_⟩
        · simp only [List.map_cons, List.nodup_cons]
          exact ⟨fun hm => (hdisj _ hm) (List.mem_cons_self _ _), hnd⟩
        · intro i hi
          simp only [List.map_cons, List.mem_cons] at hi
          rcases hi with hi | hi
          · subst hi; exact hmem
          · intro hm
            exact (hdisj i hi) (List.mem_cons_of_mem _ hm)
        · intro s hs
          rcases List.mem_cons.mp hs with hs | hs
          · subst hs; cases u; exact hsc
          · exact hchecks s hs

/-- If every per-scope field check passes but the ids (together with the
seen set) are not duplicate-free, the validation loop fails with the
duplicate-id message for an id that occurs twice (or was already seen). -/
theorem validateScopes_dup (off : Bool) :
    ∀ (scopes : List ScopeRequest) (seen : List Nat),
      (∀ s ∈ scopes, scopeCheck off s = .ok ()) →
      ¬ ((scopes.map (fun s => s.Id)).Nodup ∧ ∀ i ∈ scopes.map (fun s => s.Id), i ∉ seen) →
      ∃ i, i ∈ scopes.map (fun s => s.Id) ∧
        (i ∈ seen ∨ 2 ≤ (scopes.map (fun s => s.Id)).count i) ∧
        validateScopes off seen scopes = .error (dupScopeIdMsg i)
  | [], seen, _, hbad => absurd ⟨List.nodup_nil, by simp⟩ hbad
  | scope :: rest, seen, hchecks, hbad => by
    rw [validateScopes]
    by_cases hmem : scope.Id ∈ seen
    · refine ⟨scope.Id, by simp, Or.inl hmem, ?_⟩
      rw [if_pos (List.elem_iff.mpr hmem)]
    · have hsc : scopeCheck off scope = .ok () := hchecks scope (List.mem_cons_self _ _)
      have hbad' : ¬ ((rest.map (fun s => s.Id)).Nodup ∧
          ∀ i ∈ rest.map (fun s => s.Id), i ∉ scope.Id :: seen) := by
        intro ⟨hnd, hdisj⟩
        refine hbad ⟨?_, ?_⟩
        · simp only [List.map_cons, List.nodup_cons]
          exact ⟨fun hm => (hdisj _ hm) (List.mem_cons_self _ _), hnd⟩
        · intro i hi
          simp only [List.map_cons, List.mem_cons] at hi
          rcases hi with hi | hi
          · subst hi; exact hmem
          · exact fun hm => (hdisj i hi) (List.mem_cons_of_mem _ hm)
      obtain ⟨i, hm, hor, herr⟩ :=
        validateScopes_dup off rest (scope.Id :: seen)
          (fun s hs => hchecks s (List.mem_cons_of_mem _ hs)) hbad'
      refine ⟨i, List.mem_cons_of_mem _ hm, ?_, ?_⟩
      · rcases hor with hseen | hcount
        · rcases List.mem_cons.mp hseen with hi | hi
          · subst hi
            right
            have h1 : 1 ≤ (rest.map (fun s => s.Id)).count scope.Id :=
              List.one_le_count_iff.mpr hm
            simp only [List.map_cons, List.count_cons_self]
            omega
          · exact Or.inl hi
        · right
          simp only [List.map_cons]
          rcases eq_or_ne i scope.Id with hi | hi
          · rw [hi, List.count_cons_self]
            have h1 : 2 ≤ (rest.map (fun s => s.Id)).count i := hcount
            rw [hi] at h1
            omega
          · rw [List.count_cons_of_ne hi]
            exact hcount
      · rw [if_neg (fun hc => hmem (List.elem_iff.mp hc)), hsc]
        exact herr

/-- The on-chain and off-chain circuit enumerations are disjoint. -/
theorem offChain_not_of_onChain (c : String) (h : onChainCircuits.contains c = true) :
    offChainCircuits.contains c = false := by
  have hm : c ∈ onChainCircuits := List.elem_iff.mp h
  simp only [onChainCircuits, List.mem_cons, List.not_mem_nil, or_false] at hm
  rcases hm with hm | hm | hm <;> subst hm <;> decide

/-- If both query validations reject the scope list, `SignIn` answers
with some client error and leaves the store untouched. -/
theorem signIn_badRequest_of_invalid (cfg : ServerCfg) (st : Store)
    (sessionID msgID qrID : String) (req : SignInBody)
    (hne : req.Scope ≠ [])
    (hoff : validateRequestQuery true req.Scope ≠ .ok ())
    (hon : validateRequestQuery false req.Scope ≠ .ok ()) :
    ∃ m, signIn cfg st sessionID msgID qrID req = (.badRequest m, st) := by
  match hscope : req.Scope with
  | [] => exact absurd hscope hne
  | scope0 :: rest =>
    simp only [signIn, hscope]
    by_cases hc1 : offChainCircuits.contains scope0.CircuitId
    · rw [if_pos hc1]
      cases hchain : req.ChainID with
      | none =>
        refine ⟨chainIdEmptyMsg, ?_⟩
        simp only [getAuthRequestOffChain, validateOffChainRequest, hchain]
      | some c =>
        match hval : validateRequestQuery true req.Scope with
        | .error e =>
          refine ⟨e, ?_⟩
          simp only [getAuthRequestOffChain, validateOffChainRequest, hchain, hval]
        | .ok u => cases u; exact absurd hval hoff
    · rw [if_neg hc1]
      by_cases hc2 : onChainCircuits.contains scope0.CircuitId
      · rw [if_pos hc2]
        match hval : validateRequestQuery false req.Scope with
        | .error e =>
          refine ⟨e, ?_⟩
          simp only [getContractInvokeRequestOnChain, checkOnChainRequest, hval]
        | .ok u => cases u; exact absurd hval hon
      · rw [if_neg hc2]
        exact ⟨"invalid circuitID", rfl⟩

/-- If every response scope is V3 with a successful decode, the
collection loop returns the accumulated artifacts followed by the
per-scope expected artifacts. -/
theorem collectV3Scopes_all_ok :
    ∀ (scopes : List ZKProofResponse) (acc : List VerificationResponseScope),
      (∀ s ∈ scopes, s.CircuitID = AtomicQueryV3CircuitID ∧ ∃ ps, s.PubSignalsV3 = .ok ps) →
      collectV3Scopes acc scopes = .ok (acc.reverse ++ scopes.map expectedV3Artifact)
  | [], acc, _ => by simp [collectV3Scopes]
  | scope :: rest, acc, h => by
    obtain ⟨hv3, ps, hps⟩ := h scope (List.mem_cons_self _ _)
    rw [collectV3Scopes, if_pos hv3, hps]
    dsimp only
    rw [collectV3Scopes_all_ok rest _ (fun s hs => h s (List.mem_cons_of_mem _ hs))]
    simp [expectedV3Artifact, hps]

/-- `buildScopes` over a prefix whose scopes carry no params copies the
prefix verbatim and continues with the rest. -/
theorem buildScopes_append_noParams :
    ∀ (pre rest : List ScopeRequest), (∀ s ∈ pre, s.Params = none) →
      buildScopes (pre ++ rest) =
        match buildScopes rest with
        | .ok l => .ok ((pre.map (fun s =>
            { ID := s.Id, CircuitID := s.CircuitId, Query := s.Query
              Params := none : ZKProofRequest })) ++ l)
        | .err e => .err e
        | .panicked => .panicked
  | [], rest, _ => by
    simp only [List.nil_append, List.map_nil]
    match buildScopes rest with
    | .ok l => simp
    | .err e => rfl
    | .panicked => rfl
  | scope :: pre, rest, h => by
    have hp : scope.Params = none := h scope (List.mem_cons_self _ _)
    rw [List.cons_append, buildScopes, hp]
    rw [buildScopes_append_noParams pre rest (fun s hs => h s (List.mem_cons_of_mem _ hs))]
    match buildScopes rest with
    | .ok l => simp
    | .err e => rfl
    | .panicked => rfl

/-- Appending to a fixed string on the left is injective. -/
theorem string_append_left_cancel {a b c : String} (h : a ++ b = a ++ c) : b = c := by
  apply String.ext
  have hd := congrArg String.data h
  rw [String.data_append, String.data_append] at hd
  exact List.append_cancel_left hd

/- ------------------------------------------------------------------ -/
/- Claims. -/

/-- C9: a scope params object mapping `"nullifierSessionID"` to a
non-string JSON value (here the number 42) reaches the unchecked
`val.(string)` type assertion in `getParams`, whose failure branch is
the panic outcome of the embedding; the panic propagates through
`SignIn` on an otherwise valid off-chain request. -/
theorem c9_getParams_nonstring_panics :
    getParams [("nullifierSessionID", JSON.num 42)] = .panicked ∧
    (signIn cfgW [] "sid" "mid" "qid"
      { ChainID := some "80001"
        Scope := [{ Id := 1, CircuitId := AtomicQuerySigV2CircuitID, Query := some queryW
                    Params := some [("nullifierSessionID", JSON.num 42)] }]
        To := none, Reason := none, TransactionData := none }).1 = .panicked :=
  ⟨rfl, rfl⟩

/-- C7: saving a request message in the QR payload store under a fresh
opaque id and then reading that id returns exactly the saved message;
the stored entry under the namespaced key is exactly the message, and a
save touches no other id's entry (reads are pure in the embedding, so
repeated reads trivially return the same message and mutate nothing). -/
theorem c7_qr_store_roundtrip (st : Store) (q : QRCode) (id id2 : String) :
    qrStoreGet (qrStoreSave st id q) id = .ok q ∧
    (qrStoreSave st id q).get (qrKeyPrefix ++ id) = some (.qr q) ∧
    (id2 ≠ id → qrStoreGet (qrStoreSave st id q) id2 = qrStoreGet st id2) := by
  refine ⟨?_, ?_, ?_⟩
  · rw [qrStoreGet, qrStoreSave, Store.get_set_self]
  · rw [qrStoreSave, Store.get_set_self]
  · intro hne
    have hkey : qrKeyPrefix ++ id ≠ qrKeyPrefix ++ id2 :=
      fun h => hne (string_append_left_cancel h).symm
    rw [qrStoreGet, qrStoreSave, Store.get_set_ne _ _ _ _ hkey, qrStoreGet]

/-- C7 witness: the round trip evaluated on a concrete store, message
and ids. -/
theorem c7_qr_store_roundtrip_witness :
    qrStoreGet (qrStoreSave storePendingW "qid" (getAuthReqQRCode pendingMsgW)) "qid"
      = .ok (getAuthReqQRCode pendingMsgW) ∧
    qrStoreGet (qrStoreSave storePendingW "qid" (getAuthReqQRCode pendingMsgW)) "other"
      = qrStoreGet storePendingW "other" :=
  ⟨(c7_qr_store_roundtrip storePendingW (getAuthReqQRCode pendingMsgW) "qid" "other").1,
   (c7_qr_store_roundtrip storePendingW (getAuthReqQRCode pendingMsgW) "qid" "other").2.2
     (by decide)⟩

/-- C5: when the external verifier rejects the proof, `Callback` stores
the verifier's message as the session's terminal error value, answers
the caller with a 500 carrying that message, and every subsequent
`Status` on the session (the handler is a pure read) reports status
"error" with that message as the cause. -/
theorem c5_callback_verifier_reject (st : Store) (sessionID token : String)
    (fv : VerifierFn) (m : AuthorizationRequestMessage) (e : String)
    (hst : st.get sessionID = some (.authMsg m))
    (hfv : fv token m = .error e) :
    (callback st sessionID token fv).1 = .err500 e ∧
    (callback st sessionID token fv).2.get sessionID = some (.errVal e) ∧
    statusHandler (callback st sessionID token fv).2 sessionID =
      .ok { Status := statusError, Message := some e } := by
  refine ⟨?_, ?_, ?_⟩
  · simp only [callback, hst, hfv]
  · simp only [callback, hst, hfv]
    rw [Store.get_set_self]
  · simp only [callback, hst, hfv, statusHandler, Store.get_set_self]

/-- C5 witness: a concrete rejected callback on the pending store. -/
theorem c5_callback_verifier_reject_witness :
    (callback storePendingW "sid" "tok" (fun _ _ => .error "proof is invalid")).1
      = .err500 "proof is invalid" ∧
    statusHandler (callback storePendingW "sid" "tok"
      (fun _ _ => .error "proof is invalid")).2 "sid"
      = .ok { Status := statusError, Message := some "proof is invalid" } :=
  ⟨(c5_callback_verifier_reject storePendingW "sid" "tok" _ pendingMsgW "proof is invalid"
      rfl rfl).1,
   (c5_callback_verifier_reject storePendingW "sid" "tok" _ pendingMsgW "proof is invalid"
      rfl rfl).2.2⟩

/-- C10: once a session's entry is terminal (a stored verification error
or a stored verification response), any `Callback` on it fails the
`AuthorizationRequestMessage` type assertion with a 500 and writes
nothing, so every sequence of further `Callback` calls leaves the store
unchanged. -/
theorem c10_terminal_is_immutable (st : Store) (sessionID token : String) (fv : VerifierFn)
    (hterm : (∃ e, st.get sessionID = some (.errVal e)) ∨
      (∃ v, st.get sessionID = some (.verification v))) :
    (callback st sessionID token fv).1 =
      .err500 "failed to cast authRequest to AuthorizationRequestMessage" ∧
    (callback st sessionID token fv).2 = st ∧
    (∀ calls : List (String × VerifierFn), runCallbacks sessionID st calls = st) := by
  have hstep : ∀ (tok : String) (fv2 : VerifierFn),
      callback st sessionID tok fv2 =
        (.err500 "failed to cast authRequest to AuthorizationRequestMessage", st) := by
    intro tok fv2
    rcases hterm with ⟨e, he⟩ | ⟨v, hv⟩
    · simp only [callback, he]
    · simp only [callback, hv]
  refine ⟨congrArg Prod.fst (hstep token fv), congrArg Prod.snd (hstep token fv), ?_⟩
  intro calls
  induction calls with
  | nil => rfl
  | cons hd tl ih =>
    obtain ⟨tok2, fv2⟩ := hd
    rw [runCallbacks, hstep tok2 fv2]
    exact ih

/-- A concrete store holding a terminal error session. -/
def storeErrW : Store := [("sid", .errVal "bad proof")]

/-- C10 witness: two further callbacks (one rejecting, one accepting
verifier) leave the concrete terminal store unchanged. -/
theorem c10_terminal_is_immutable_witness :
    (callback storeErrW "sid" "tok" (fun _ _ => .ok respV3W)).2 = storeErrW ∧
    runCallbacks "sid" storeErrW
      [("t1", fun _ _ => .error "x"), ("t2", fun _ _ => .ok respV3W)] = storeErrW :=
  ⟨(c10_terminal_is_immutable storeErrW "sid" "tok" (fun _ _ => .ok respV3W)
      (Or.inl ⟨"bad proof", rfl⟩)).2.1,
   (c10_terminal_is_immutable storeErrW "sid" "tok" (fun _ _ => .ok respV3W)
      (Or.inl ⟨"bad proof", rfl⟩)).2.2 _⟩

/-- C1 counterexample: a successful on-chain `SignIn` whose session's
`Status` before any callback is the nil fall-through response, not
"pending": the stored contract-invoke message matches no case of the
`Status` type switch. -/
theorem c1_counterexample :
    (signIn cfgW [] "sid" "mid" "qid" reqOnW).1
      = .ok (signInQRURL "http://localhost" "qid") "sid" ∧
    statusHandler (signIn cfgW [] "sid" "mid" "qid" reqOnW).2 "sid" = .nilResponse ∧
    statusHandler (signIn cfgW [] "sid" "mid" "qid" reqOnW).2 "sid"
      ≠ .ok { Status := statusPending } := by
  refine ⟨rfl, rfl, ?_⟩
  intro h
  rw [show statusHandler (signIn cfgW [] "sid" "mid" "qid" reqOnW).2 "sid" = .nilResponse
    from rfl] at h
  exact StatusResult.noConfusion h

/-- C1 (amended): before any callback, `Status` on a session created by
a successful off-chain `SignIn` returns "pending", while on a session
created by a successful on-chain `SignIn` it returns the nil
fall-through response (no status at all), because the stored
contract-invoke message matches no case of the `Status` type switch. -/
theorem c1_status_of_fresh_session (cfg : ServerCfg) (st : Store)
    (sessionID msgID qrID : String) (req : SignInBody)
    (scope0 : ScopeRequest) (rest : List ScopeRequest)
    (hscope : req.Scope = scope0 :: rest)
    (hfresh : qrKeyPrefix ++ qrID ≠ sessionID) :
    (offChainCircuits.contains scope0.CircuitId = true →
      ∀ a, getAuthRequestOffChain cfg req sessionID msgID = .ok a →
        statusHandler (signIn cfg st sessionID msgID qrID req).2 sessionID =
          .ok { Status := statusPending }) ∧
    (onChainCircuits.contains scope0.CircuitId = true →
      ∀ a, getContractInvokeRequestOnChain cfg req msgID = .ok a →
        statusHandler (signIn cfg st sessionID msgID qrID req).2 sessionID =
          .nilResponse) := by
  constructor
  · intro hc a ha
    simp only [signIn, hscope]
    rw [if_pos hc, ha]
    have h1 : (qrStoreSave (st.set sessionID (.authMsg a)) qrID
        (getAuthReqQRCode a)).get sessionID = some (.authMsg a) := by
      rw [qrStoreSave, Store.get_set_ne _ _ _ _ hfresh, Store.get_set_self]
    simp only [statusHandler, h1]
  · intro hc a ha
    have hoff : offChainCircuits.contains scope0.CircuitId = false :=
      offChain_not_of_onChain _ hc
    simp only [signIn, hscope]
    rw [if_neg (fun h => Bool.false_ne_true (hoff ▸ h)), if_pos hc, ha]
    have h1 : (qrStoreSave (st.set sessionID (.invokeMsg a)) qrID
        (getInvokeContractQRCode a)).get sessionID = some (.invokeMsg a) := by
      rw [qrStoreSave, Store.get_set_ne _ _ _ _ hfresh, Store.get_set_self]
    simp only [statusHandler, h1]

/-- C1 witness: the off-chain half on a concrete valid request and the
on-chain half on a concrete valid request. -/
theorem c1_status_of_fresh_session_witness :
    statusHandler (signIn cfgW [] "sid" "mid" "qid" reqOffW).2 "sid"
      = .ok { Status := statusPending } ∧
    statusHandler (signIn cfgW [] "sid" "mid" "qid" reqOnW).2 "sid" = .nilResponse :=
  ⟨(c1_status_of_fresh_session cfgW [] "sid" "mid" "qid" reqOffW scSigV2W [] rfl
      (by decide)).1 rfl _ rfl,
   (c1_status_of_fresh_session cfgW [] "sid" "mid" "qid" reqOnW scOnChainW [] rfl
      (by decide)).2 rfl _ rfl⟩

/-- A concrete duplicate-scope-id request whose chain id is absent. -/
def reqDupNoChainW : SignInBody :=
  { ChainID := none, Scope := [scSigV2W, scSigV2W], To := none, Reason := none
    TransactionData := none }

/-- A concrete duplicate-scope-id request that is otherwise valid. -/
def reqDupW : SignInBody :=
  { ChainID := some "80001", Scope := [scSigV2W, scSigV2W], To := none, Reason := none
    TransactionData := none }

/-- C2 counterexample: a specification with a duplicate scope id (id 1
twice) whose `SignIn` failure message is the chain-id message, not the
duplicate-id message the claim requires, because the chain-id presence
check runs first. -/
theorem c2_counterexample :
    (signIn cfgW [] "sid" "mid" "qid" reqDupNoChainW).1 = .badRequest chainIdEmptyMsg ∧
    chainIdEmptyMsg ≠ dupScopeIdMsg 1 := by
  refine ⟨rfl, ?_⟩
  decide

/-- C2 (amended): a specification with a duplicate scope id always makes
`SignIn` fail with some client error and create no session (no store
write, so `Status` on any id absent from the store stays not-found);
the failure message is the duplicate-id message
"field scope id must be unique, got {id} multiple times" for a
duplicated id provided no earlier validation rule fails first (here:
chain id present, first scope's circuit recognized as off-chain, and
every scope passing the per-scope field checks). -/
theorem c2_duplicate_scope_id (cfg : ServerCfg) (st : Store)
    (sessionID msgID qrID : String) (req : SignInBody)
    (hdup : ¬ (req.Scope.map (fun s => s.Id)).Nodup) :
    (∃ m, signIn cfg st sessionID msgID qrID req = (.badRequest m, st)) ∧
    (∀ id2, st.get id2 = none →
      statusHandler (signIn cfg st sessionID msgID qrID req).2 id2 =
        .notFound "sessionID not found") ∧
    ((∀ s ∈ req.Scope, scopeCheck true s = .ok ()) →
      req.ChainID ≠ none →
      (∃ scope0 rest, req.Scope = scope0 :: rest ∧
        offChainCircuits.contains scope0.CircuitId = true) →
      ∃ i, 2 ≤ (req.Scope.map (fun s => s.Id)).count i ∧
        (signIn cfg st sessionID msgID qrID req).1 = .badRequest (dupScopeIdMsg i)) := by
  have hne : req.Scope ≠ [] := by
    intro h
    exact hdup (by rw [h]; exact List.nodup_nil)
  have hoff : validateRequestQuery true req.Scope ≠ .ok () := by
    intro h
    exact hdup (validateScopes_ok true req.Scope [] h).1
  have hon : validateRequestQuery false req.Scope ≠ .ok () := by
    intro h
    exact hdup (validateScopes_ok false req.Scope [] h).1
  obtain ⟨m, heq⟩ := signIn_badRequest_of_invalid cfg st sessionID msgID qrID req hne hoff hon
  refine ⟨⟨m, heq⟩, ?_, ?_⟩
  · intro id2 hid2
    rw [heq]
    simp only [statusHandler, hid2]
  · intro hchecks hchain ⟨scope0, rest, hscope, hc⟩
    obtain ⟨i, _, hor, herr⟩ :=
      validateScopes_dup true req.Scope [] hchecks (fun hp => hdup hp.1)
    have hcount : 2 ≤ (req.Scope.map (fun s => s.Id)).count i := by
      rcases hor with hin | hcount
      · exact absurd hin (List.not_mem_nil i)
      · exact hcount
    refine ⟨i, hcount, ?_⟩
    match hchainv : req.ChainID with
    | none => exact absurd hchainv hchain
    | some c =>
      simp only [signIn, hscope]
      rw [if_pos hc]
      simp only [getAuthRequestOffChain, validateOffChainRequest, hchainv,
        validateRequestQuery] at herr ⊢
      rw [herr]

/-- C2 witness: the amended theorem evaluated on a concrete otherwise
valid duplicate-id request (duplicated id 1) and on the empty store. -/
theorem c2_duplicate_scope_id_witness :
    (∃ m, signIn cfgW [] "sid" "mid" "qid" reqDupW = (.badRequest m, [])) ∧
    (∃ i, 2 ≤ (reqDupW.Scope.map (fun s => s.Id)).count i ∧
      (signIn cfgW [] "sid" "mid" "qid" reqDupW).1 = .badRequest (dupScopeIdMsg i)) :=
  ⟨(c2_duplicate_scope_id cfgW [] "sid" "mid" "qid" reqDupW (by decide)).1,
   (c2_duplicate_scope_id cfgW [] "sid" "mid" "qid" reqDupW (by decide)).2.2
     (by
       intro s hs
       simp only [reqDupW, List.mem_cons, List.not_mem_nil, or_false] at hs
       rcases hs with h | h <;> (subst h; rfl))
     (by decide) ⟨scSigV2W, [scSigV2W], rfl, by decide⟩⟩

/-- A configuration whose sender-DID map contains the unsupported chain
id 12345. -/
def cfg12345W : ServerCfg :=
  { host := "http://localhost", senderDIDs := [("12345", "did:custom:12345")] }

/-- An off-chain request targeting the unsupported chain id 12345. -/
def reqChain12345W : SignInBody :=
  { ChainID := some "12345", Scope := [scSigV2W], To := none, Reason := none
    TransactionData := none }

/-- C3 counterexample: chain id "12345" is outside the supported
enumeration, yet `SignIn` does not fail with a validation error naming
the supported set: with a sender DID configured for 12345 it succeeds
outright, and without one it fails with "sender not found for chainID
12345", a message that is not the supported-set-naming message. -/
theorem c3_counterexample :
    ("12345" ∉ [mumbaiNetwork, mainnetNetwork, amoyNetwork]) ∧
    (signIn cfg12345W [] "sid" "mid" "qid" reqChain12345W).1
      = .ok (signInQRURL "http://localhost" "qid") "sid" ∧
    (signIn cfgW [] "sid" "mid" "qid" reqChain12345W).1
      = .badRequest "sender not found for chainID 12345" ∧
    "sender not found for chainID 12345" ≠ chainIdEmptyMsg := by
  exact ⟨by decide, rfl, rfl, by decide⟩

/-- C3 (amended): off-chain validation checks only the *presence* of
the chain id: absence fails with the message naming the supported set
("field chainId is empty expected 80001 or 137 or 80002"); a present
chain id is never checked against the enumeration — `SignIn` fails only
when no sender DID is configured for it, with "sender not found for
chainID {id}" (a message that does not name the set), and succeeds when
one is configured. -/
theorem c3_chain_id_not_enforced (cfg : ServerCfg) (st : Store)
    (sessionID msgID qrID : String) (req : SignInBody)
    (scope0 : ScopeRequest) (rest : List ScopeRequest)
    (hscope : req.Scope = scope0 :: rest)
    (hcirc : offChainCircuits.contains scope0.CircuitId = true)
    (hval : validateRequestQuery true req.Scope = .ok ()) :
    (req.ChainID = none →
      (signIn cfg st sessionID msgID qrID req).1 = .badRequest chainIdEmptyMsg) ∧
    (∀ c, req.ChainID = some c → strLookup cfg.senderDIDs c = none →
      signIn cfg st sessionID msgID qrID req =
        (.badRequest ("sender not found for chainID " ++ c), st)) ∧
    (∀ c d l, req.ChainID = some c → strLookup cfg.senderDIDs c = some d →
      buildScopes req.Scope = .ok l →
      (signIn cfg st sessionID msgID qrID req).1 =
        .ok (signInQRURL cfg.host qrID) sessionID) := by
  refine ⟨?_, ?_, ?_⟩
  · intro hchain
    simp only [signIn, hscope]
    rw [if_pos hcirc]
    simp only [getAuthRequestOffChain, validateOffChainRequest, hchain]
  · intro c hchain hsender
    simp only [signIn, hscope]
    rw [if_pos hcirc]
    simp only [getAuthRequestOffChain, validateOffChainRequest, hchain, hval,
      getSenderDID, hsender]
  · intro c d l hchain hsender hbuild
    simp only [signIn, hscope]
    rw [if_pos hcirc]
    simp only [getAuthRequestOffChain, validateOffChainRequest, hchain, hval,
      getSenderDID, hsender, hbuild]

/-- C3 witness: the amended theorem evaluated on the concrete chain id
12345, in both the unconfigured (failing) and configured (succeeding)
deployments. -/
theorem c3_chain_id_not_enforced_witness :
    signIn cfgW [] "sid" "mid" "qid" reqChain12345W =
      (.badRequest ("sender not found for chainID " ++ "12345"), []) ∧
    (signIn cfg12345W [] "sid" "mid" "qid" reqChain12345W).1 =
      .ok (signInQRURL "http://localhost" "qid") "sid" :=
  ⟨(c3_chain_id_not_enforced cfgW [] "sid" "mid" "qid" reqChain12345W scSigV2W [] rfl
      (by decide) rfl).2.1 "12345" rfl rfl,
   (c3_chain_id_not_enforced cfg12345W [] "sid" "mid" "qid" reqChain12345W scSigV2W [] rfl
      (by decide) rfl).2.2 "12345" "did:custom:12345" _ rfl rfl rfl⟩

/-- A `nil` JSON value is in particular nil-or-empty-string. -/
theorem isNilOrEmptyStr_of_isNil (x : Option JSON) (h : isNilJSON x = true) :
    isNilOrEmptyStr x = true := by
  match x with
  | none => rfl
  | some .null => rfl
  | some (.bool b) => exact absurd h Bool.false_ne_true
  | some (.num n) => exact absurd h Bool.false_ne_true
  | some (.str s) => exact absurd h Bool.false_ne_true
  | some (.arr xs) => exact absurd h Bool.false_ne_true
  | some (.obj fs) => exact absurd h Bool.false_ne_true

/-- A scope whose query document is present but misses (or holds JSON
null at) `context`, `type` or `allowedIssuers` never passes the
per-scope field checks, in either validation mode. -/
theorem scopeCheck_ne_ok_of_missing (off : Bool) (s : ScopeRequest)
    (q : List (String × JSON)) (hq : s.Query = some q)
    (hmiss : isNilJSON (jsonLookup q "context") = true ∨
      isNilJSON (jsonLookup q "type") = true ∨
      isNilJSON (jsonLookup q "allowedIssuers") = true) :
    scopeCheck off s ≠ .ok () := by
  intro hok
  rw [scopeCheck] at hok
  split at hok
  · exact Except.noConfusion hok
  split at hok
  · exact Except.noConfusion hok
  split at hok
  · exact Except.noConfusion hok
  split at hok
  · exact Except.noConfusion hok
  rw [hq] at hok
  dsimp only at hok
  rcases hmiss with hm | hm | hm
  · rw [if_pos (isNilOrEmptyStr_of_isNil _ hm)] at hok
    exact Except.noConfusion hok
  · by_cases h1 : isNilOrEmptyStr (jsonLookup q "context") = true
    · rw [if_pos h1] at hok
      exact Except.noConfusion hok
    · rw [if_neg h1, if_pos (isNilOrEmptyStr_of_isNil _ hm)] at hok
      exact Except.noConfusion hok
  · by_cases h1 : isNilOrEmptyStr (jsonLookup q "context") = true
    · rw [if_pos h1] at hok
      exact Except.noConfusion hok
    · by_cases h2 : isNilOrEmptyStr (jsonLookup q "type") = true
      · rw [if_neg h1, if_pos h2] at hok
        exact Except.noConfusion hok
      · rw [if_neg h1, if_neg h2, if_pos hm] at hok
        exact Except.noConfusion hok

/-- C6: a specification in which some scope's query document misses
`context`, `type` or `allowedIssuers` makes `SignIn` answer a 4xx
client error, with no session-store or QR-store write (the cache after
the call is exactly the cache before it). -/
theorem c6_missing_query_field (cfg : ServerCfg) (st : Store)
    (sessionID msgID qrID : String) (req : SignInBody)
    (s : ScopeRequest) (q : List (String × JSON))
    (hs : s ∈ req.Scope) (hq : s.Query = some q)
    (hmiss : isNilJSON (jsonLookup q "context") = true ∨
      isNilJSON (jsonLookup q "type") = true ∨
      isNilJSON (jsonLookup q "allowedIssuers") = true) :
    ∃ m, signIn cfg st sessionID msgID qrID req = (.badRequest m, st) := by
  have hne : req.Scope ≠ [] := by
    intro h
    rw [h] at hs
    exact List.not_mem_nil s hs
  have hoff : validateRequestQuery true req.Scope ≠ .ok () := by
    intro h
    exact scopeCheck_ne_ok_of_missing true s q hq hmiss
      ((validateScopes_ok true req.Scope [] h).2.2 s hs)
  have hon : validateRequestQuery false req.Scope ≠ .ok () := by
    intro h
    exact scopeCheck_ne_ok_of_missing false s q hq hmiss
      ((validateScopes_ok false req.Scope [] h).2.2 s hs)
  exact signIn_badRequest_of_invalid cfg st sessionID msgID qrID req hne hoff hon

/-- A concrete scope whose query misses `allowedIssuers`. -/
def scMissingW : ScopeRequest :=
  { Id := 1, CircuitId := AtomicQuerySigV2CircuitID
    Query := some [("context", .str "ctx"), ("type", .str "KYCAgeCredential")]
    Params := none }

/-- C6 witness: the theorem evaluated on a concrete request whose only
scope misses `allowedIssuers`. -/
theorem c6_missing_query_field_witness :
    ∃ m, signIn cfgW [] "sid" "mid" "qid"
      { ChainID := some "80001", Scope := [scMissingW], To := none, Reason := none
        TransactionData := none } = (.badRequest m, []) :=
  c6_missing_query_field cfgW [] "sid" "mid" "qid" _ scMissingW
    [("context", .str "ctx"), ("type", .str "KYCAgeCredential")]
    (List.mem_cons_self _ _) rfl (Or.inr (Or.inr rfl))

/-- C4: on a successful callback, artifacts are extracted only from V3
scopes.  If the response's first scope is any other circuit family, the
artifact list is empty and the callback still succeeds (storing a
verification response with no artifacts, so the later "success" status
carries no nullifiers).  If every scope is V3 with decodable public
signals, each artifact carries the scope id and the decimal renderings
of the nullifier and nullifier session id, and the later "success"
status surfaces exactly those artifacts. -/
theorem c4_v3_artifact_extraction (st : Store) (sessionID token : String)
    (fv : VerifierFn) (m : AuthorizationRequestMessage)
    (resp : AuthorizationResponseMessage)
    (scope0 : ZKProofResponse) (rest : List ZKProofResponse)
    (hst : st.get sessionID = some (.authMsg m))
    (hfv : fv token m = .ok resp)
    (hscopes : resp.Scope = scope0 :: rest) :
    (scope0.CircuitID ≠ AtomicQueryV3CircuitID →
      callback st sessionID token fv =
        (.ok200, st.set sessionID
          (.verification { Jwz := token, UserDID := resp.From, Scopes := [] })) ∧
      statusHandler (callback st sessionID token fv).2 sessionID =
        .ok { Status := statusSuccess, Jwz := some token,
              JwzMetadata := some { UserDID := resp.From, Nullifiers := none } }) ∧
    ((∀ s ∈ resp.Scope, s.CircuitID = AtomicQueryV3CircuitID ∧
        ∃ ps, s.PubSignalsV3 = .ok ps) →
      callback st sessionID token fv =
        (.ok200, st.set sessionID (.verification
          { Jwz := token, UserDID := resp.From
            Scopes := resp.Scope.map expectedV3Artifact })) ∧
      statusHandler (callback st sessionID token fv).2 sessionID =
        .ok { Status := statusSuccess, Jwz := some token,
              JwzMetadata := some
                { UserDID := resp.From,
                  Nullifiers := some ((resp.Scope.map expectedV3Artifact).map (fun a =>
                    { ScopeID := a.ID,
                      NullifierSessionID := a.NullifierSessionID,
                      Nullifier := a.Nullifier })) } }) := by
  constructor
  · intro hne
    have hv : getVerificationResponseScopes resp.Scope = .ok [] := by
      rw [hscopes]
      simp only [getVerificationResponseScopes]
      rw [if_pos hne]
    have hcb : callback st sessionID token fv =
        (.ok200, st.set sessionID
          (.verification { Jwz := token, UserDID := resp.From, Scopes := [] })) := by
      simp only [callback, hst, hfv, hv]
    refine ⟨hcb, ?_⟩
    rw [hcb]
    simp [statusHandler, Store.get_set_self, getStatusVerificationResponse]
  · intro hall
    have hv3 : scope0.CircuitID = AtomicQueryV3CircuitID :=
      (hall scope0 (by rw [hscopes]; exact List.mem_cons_self _ _)).1
    have hcol : collectV3Scopes [] resp.Scope = .ok (resp.Scope.map expectedV3Artifact) := by
      rw [collectV3Scopes_all_ok resp.Scope [] hall]
      simp
    have hv : getVerificationResponseScopes resp.Scope =
        .ok (resp.Scope.map expectedV3Artifact) := by
      rw [hscopes] at hcol ⊢
      simp only [getVerificationResponseScopes]
      rw [if_neg (fun hne => hne hv3)]
      exact hcol
    have hcb : callback st sessionID token fv =
        (.ok200, st.set sessionID (.verification
          { Jwz := token, UserDID := resp.From
            Scopes := resp.Scope.map expectedV3Artifact })) := by
      simp only [callback, hst, hfv, hv]
    refine ⟨hcb, ?_⟩
    rw [hcb]
    simp only [statusHandler, Store.get_set_self, getStatusVerificationResponse]
    rw [hscopes]
    simp [List.isEmpty_cons]

/-- C4 witness: the all-V3 half on a concrete two-scope V3 response and
the other-family half on a concrete SigV2 response, against the
concrete pending store. -/
theorem c4_v3_artifact_extraction_witness :
    statusHandler (callback storePendingW "sid" "tok" (fun _ _ => .ok respV3W)).2 "sid"
      = .ok { Status := statusSuccess, Jwz := some "tok",
              JwzMetadata := some
                { UserDID := "did:polygonid:polygon:mumbai:2qUser",
                  Nullifiers := some
                    [ { ScopeID := 1, NullifierSessionID := "100", Nullifier := "77" }
                    , { ScopeID := 2, NullifierSessionID := "101", Nullifier := "78" } ] } } ∧
    statusHandler (callback storePendingW "sid" "tok" (fun _ _ => .ok respSigV2W)).2 "sid"
      = .ok { Status := statusSuccess, Jwz := some "tok",
              JwzMetadata := some
                { UserDID := "did:polygonid:polygon:mumbai:2qUser",
                  Nullifiers := none } } :=
  ⟨(c4_v3_artifact_extraction storePendingW "sid" "tok" (fun _ _ => .ok respV3W)
      pendingMsgW respV3W _ _ rfl rfl rfl).2
      (by
        intro s hs
        simp only [respV3W, List.mem_cons, List.not_mem_nil, or_false] at hs
        rcases hs with h | h <;> (subst h; exact ⟨rfl, _, rfl⟩)) |>.2,
   (c4_v3_artifact_extraction storePendingW "sid" "tok" (fun _ _ => .ok respSigV2W)
      pendingMsgW respSigV2W _ _ rfl rfl rfl).1 (by decide) |>.2⟩

/-- C8: when a scope carries an extra-params object, the only key
`getParams` ever reads is `"nullifierSessionID"` (its result depends
only on that key's binding); on an otherwise valid off-chain request,
`SignIn` fails with "nullifierSessionID is empty" when the key is
absent and with "nullifierSessionID is not a valid big integer" when
its value is a string that does not parse as a base-10 big integer —
an explicit rejection, not a silent truncation — and in both cases no
store write happens. -/
theorem c8_nullifier_session_id_params (cfg : ServerCfg) (st : Store)
    (sessionID msgID qrID : String) (req : SignInBody) (c d : String)
    (pre post : List ScopeRequest) (s : ScopeRequest) (p : List (String × JSON))
    (hscope : req.Scope = pre ++ s :: post)
    (hpre : ∀ s2 ∈ pre, s2.Params = none)
    (hp : s.Params = some p)
    (hcirc : ∃ scope0 rest, req.Scope = scope0 :: rest ∧
      offChainCircuits.contains scope0.CircuitId = true)
    (hchain : req.ChainID = some c)
    (hval : validateRequestQuery true req.Scope = .ok ())
    (hsender : strLookup cfg.senderDIDs c = some d) :
    (∀ p2, jsonLookup p2 "nullifierSessionID" = jsonLookup p "nullifierSessionID" →
      getParams p2 = getParams p) ∧
    (jsonLookup p "nullifierSessionID" = none →
      signIn cfg st sessionID msgID qrID req =
        (.badRequest "nullifierSessionID is empty", st)) ∧
    (∀ v, jsonLookup p "nullifierSessionID" = some (.str v) → bigIntSetString v = none →
      signIn cfg st sessionID msgID qrID req =
        (.badRequest "nullifierSessionID is not a valid big integer", st)) := by
  obtain ⟨scope0, rest, hsc, hc⟩ := hcirc
  have hbuild : ∀ (e : String), getParams p = .err e → buildScopes req.Scope = .err e := by
    intro e hge
    have hcons : buildScopes (s :: post) = .err e := by
      simp only [buildScopes, hp, hge]
    rw [hscope, buildScopes_append_noParams pre (s :: post) hpre, hcons]
  have hmain : ∀ (e : String), getParams p = .err e →
      signIn cfg st sessionID msgID qrID req = (.badRequest e, st) := by
    intro e hge
    simp only [signIn, hsc]
    rw [if_pos hc]
    simp only [getAuthRequestOffChain, validateOffChainRequest, hchain, hval,
      getSenderDID, hsender, hbuild e hge]
  refine ⟨?_, ?_, ?_⟩
  · intro p2 h2
    rw [getParams, getParams, h2]
  · intro hkey
    exact hmain "nullifierSessionID is empty" (by rw [getParams, hkey])
  · intro v hkey hparse
    refine hmain "nullifierSessionID is not a valid big integer" ?_
    rw [getParams, hkey]
    dsimp only
    rw [hparse]

/-- A concrete otherwise valid off-chain request whose scope's params
object is present but lacks the `"nullifierSessionID"` key. -/
def reqParamsEmptyW : SignInBody :=
  { ChainID := some "80001"
    Scope := [{ Id := 1, CircuitId := AtomicQuerySigV2CircuitID, Query := some queryW
                Params := some [("other", .str "1")] }]
    To := none, Reason := none, TransactionData := none }

/-- A concrete otherwise valid off-chain request whose scope's params
map `"nullifierSessionID"` to a non-numeric string. -/
def reqParamsBadIntW : SignInBody :=
  { ChainID := some "80001"
    Scope := [{ Id := 1, CircuitId := AtomicQuerySigV2CircuitID, Query := some queryW
                Params := some [("nullifierSessionID", .str "invalid")] }]
    To := none, Reason := none, TransactionData := none }

/-- C8 witness: the theorem evaluated on the two concrete failing
requests. -/
theorem c8_nullifier_session_id_params_witness :
    signIn cfgW [] "sid" "mid" "qid" reqParamsEmptyW =
      (.badRequest "nullifierSessionID is empty", []) ∧
    signIn cfgW [] "sid" "mid" "qid" reqParamsBadIntW =
      (.badRequest "nullifierSessionID is not a valid big integer", []) :=
  ⟨(c8_nullifier_session_id_params cfgW [] "sid" "mid" "qid" reqParamsEmptyW
      "80001" "did:polygonid:polygon:mumbai:2qH7" [] []
      { Id := 1, CircuitId := AtomicQuerySigV2CircuitID, Query := some queryW
        Params := some [("other", .str "1")] }
      [("other", .str "1")] rfl (fun _ h => absurd h (List.not_mem_nil _)) rfl
      ⟨_, [], rfl, by decide⟩ rfl rfl rfl).2.1 rfl,
   (c8_nullifier_session_id_params cfgW [] "sid" "mid" "qid" reqParamsBadIntW
      "80001" "did:polygonid:polygon:mumbai:2qH7" [] []
      { Id := 1, CircuitId := AtomicQuerySigV2CircuitID, Query := some queryW
        Params := some [("nullifierSessionID", .str "invalid")] }
      [("nullifierSessionID", .str "invalid")] rfl
      (fun _ h => absurd h (List.not_mem_nil _)) rfl
      ⟨_, [], rfl, by decide⟩ rfl rfl rfl).2.2 "invalid" rfl rfl⟩

end VerifierBackend
